import Mathlib

/-!
Verification of the generation orchestrator of `backend/ai_generator.py`
(class `AIGenerator`: `generate_response` and `_handle_tool_execution`).

The language-model API is modelled as a scripted oracle: a list of pending
`Response`s consumed in order, one per API call.  Each execution is embedded
as a trace recording, in order, the parameters of every API call issued and
every tool dispatch performed, together with the returned answer.  Reading
`.text` of a content block that is not a text block (Python would raise
`AttributeError`) and running past the end of the script are modelled by
`Option`: the answer field is `none` when the unguarded `.text` access fails,
and the whole run is `none` only when the script is too short (an artifact of
the oracle, not a program behaviour).
-/

/-- A `tool_use` content block of a model response: `block.id`, `block.name`,
`block.input` (the input dict is opaque to the orchestrator, passed verbatim
to `tool_manager.execute_tool`). -/
structure ToolUseBlock where
  id : String
  name : String
  input : String
deriving Repr, DecidableEq

/-- A content block of a model response: either a text block or a tool-use
request (`block.type` is `"text"` or `"tool_use"`). -/
inductive ContentBlock where
  | text (s : String)
  | toolUse (b : ToolUseBlock)
deriving Repr, DecidableEq

/-- A model API response: `response.stop_reason` and `response.content`. -/
structure Response where
  stop_reason : String
  content : List ContentBlock
deriving Repr, DecidableEq

/-- A tool-result block `{"type": "tool_result", "tool_use_id": ..., "content": ...}`
built in `_handle_tool_execution`. -/
structure ToolResult where
  tool_use_id : String
  content : String
deriving Repr, DecidableEq

/-- Message content: the initial user query is a plain string; an assistant
turn carries the content blocks of the response; a tool-result turn carries the
list of tool-result blocks. -/
inductive MsgContent where
  | str (s : String)
  | blocks (bs : List ContentBlock)
  | results (rs : List ToolResult)
deriving Repr, DecidableEq

/-- A conversation message `{"role": ..., "content": ...}`. -/
structure Message where
  role : String
  content : MsgContent
deriving Repr, DecidableEq

/-- Tool definitions are opaque schema payloads passed verbatim to the API;
their content never matters to the orchestrator. -/
abbrev ToolDef := String

/-- The parameters of one `client.messages.create(**params)` call:
`self.base_params` (model, temperature, max_tokens) plus messages, system,
and the optional `tools` / `tool_choice` keys (`none` = key absent). -/
structure ApiParams where
  model : String
  temperature : Nat
  max_tokens : Nat
  messages : List Message
  system : String
  tools : Option (List ToolDef)
  tool_choice : Option String
deriving Repr, DecidableEq

/-- `tool_manager.execute_tool(name, **input)`: name and opaque input to
result text. -/
abbrev ToolManager := String → String → String

/-- The trace of one `generate_response` execution: the parameters of every
API call in order, every tool dispatch `(name, input)` in order, and the
returned string (`none` when the final unguarded `.text` access fails). -/
structure GenResult where
  calls : List ApiParams
  toolLog : List (String × String)
  answer : Option String
deriving Repr, DecidableEq

/-- `MAX_TOOL_ROUNDS = 2` (class constant of `AIGenerator`). -/
def MAX_TOOL_ROUNDS : Nat := 2

/-- An apostrophe character, for building the not-found sentinel string. -/
def squote : String := String.mk [Char.ofNat 39]

/-- The sentinel string built by f-string interpolation of the tool name
(Tool <name> not found, with the name in single quotes) that
`_handle_tool_execution` compares each dispatch result against. -/
def sentinel (name : String) : String :=
  "Tool " ++ squote ++ name ++ squote ++ " not found"

/-- The static `SYSTEM_PROMPT` class constant (transcribed verbatim). -/
def SYSTEM_PROMPT : String :=
  " You are an AI assistant specialized in course materials and educational content with access to a comprehensive search tool for course information.\n\nSearch Tool Usage:\n- Use `get_course_outline` for questions about course structure, lesson list, or course overview (e.g. \"what lessons does X have?\", \"how many lessons are in X?\", \"what topics does X cover?\")\n- Use `search_course_content` for questions about specific educational content within a course\n- **Up to 2 sequential tool calls per query** — use a second call only when the first result is insufficient to answer (e.g., get course outline first, then search for related content)\n- Synthesize results into accurate, fact-based responses\n- If a tool yields no results, state this clearly without offering alternatives\n\nResponse Protocol:\n- **General knowledge questions**: Answer using existing knowledge without searching\n- **Course-specific questions**: Search first, then answer\n- **No meta-commentary**:\n - Provide direct answers only — no reasoning process, search explanations, or question-type analysis\n - Do not mention \"based on the search results\"\n\n\nAll responses must be:\n1. **Brief, Concise and focused** - Get to the point quickly\n2. **Educational** - Maintain instructional value\n3. **Clear** - Use accessible language\n4. **Example-supported** - Include relevant examples when they aid understanding\nProvide only the direct answer to what was asked.\n"

/-- Python truthiness of the optional `conversation_history` string:
`None` and `""` are falsy. -/
def strTruthy : Option String → Bool
  | none => false
  | some s => !(s == "")

/-- Python truthiness of the optional `tools` list: `None` and `[]` are
falsy. -/
def toolsTruthy : Option (List ToolDef) → Bool
  | none => false
  | some l => !l.isEmpty

/-- The system content composed at the start of `generate_response`:
`SYSTEM_PROMPT` plus a rendering of prior turns iff the history is truthy. -/
def composeSystem (conversation_history : Option String) : String :=
  if strTruthy conversation_history then
    SYSTEM_PROMPT ++ "\n\nPrevious conversation:\n" ++ conversation_history.getD ""
  else
    SYSTEM_PROMPT

/-- `response.content[0].text`: `some` the text of the first content block
when it is a text block, `none` when the content is empty (IndexError) or
the first block is a tool-use block (AttributeError). -/
def firstText (r : Response) : Option String :=
  match r.content with
  | ContentBlock.text s :: _ => some s
  | _ => none

/-- The tool-result list built by the dispatch loop of one round: one result
block per `tool_use` block of the assistant content, in content order, each
carrying the id of the originating block. -/
def toolResults (tm : ToolManager) : List ContentBlock → List ToolResult
  | [] => []
  | ContentBlock.text _ :: rest => toolResults tm rest
  | ContentBlock.toolUse b :: rest =>
      ⟨b.id, tm b.name b.input⟩ :: toolResults tm rest

/-- The `tool_failed` flag of one round: set when some dispatch result equals
the sentinel (Tool <name> not found, name in single quotes) for the
requested name. -/
def toolFailed (tm : ToolManager) : List ContentBlock → Bool
  | [] => false
  | ContentBlock.text _ :: rest => toolFailed tm rest
  | ContentBlock.toolUse b :: rest =>
      (tm b.name b.input == sentinel b.name) || toolFailed tm rest

/-- The tool dispatches `(name, input)` performed in one round, in content
order (every `tool_use` block is dispatched, regardless of failures). -/
def toolDispatches : List ContentBlock → List (String × String)
  | [] => []
  | ContentBlock.text _ :: rest => toolDispatches rest
  | ContentBlock.toolUse b :: rest => (b.name, b.input) :: toolDispatches rest

/-- Number of `tool_use` blocks in a content list. -/
def countToolUse : List ContentBlock → Nat
  | [] => 0
  | ContentBlock.text _ :: rest => countToolUse rest
  | ContentBlock.toolUse _ :: rest => 1 + countToolUse rest

/-- The ids of the `tool_use` blocks of a content list, in order. -/
def toolUseIds : List ContentBlock → List String
  | [] => []
  | ContentBlock.text _ :: rest => toolUseIds rest
  | ContentBlock.toolUse b :: rest => b.id :: toolUseIds rest

/-- The parameters of an in-loop model call: `{**self.base_params, messages,
system}` plus the `tools` / `tool_choice` keys exactly when `includeTools`
(`tools and not is_last_round` in the source). -/
def nextRoundParams (model : String) (msgs : List Message) (system : String)
    (tools : Option (List ToolDef)) (includeTools : Bool) : ApiParams :=
  { model := model, temperature := 0, max_tokens := 800
    messages := msgs, system := system
    tools := if includeTools then tools else none
    tool_choice := if includeTools then some "auto" else none }

/-- The working state of the tool-execution loop: accumulated conversation,
the current model response, the unconsumed oracle script, and the trace
accumulators. -/
structure OrcState where
  messages : List Message
  current : Response
  pending : List Response
  calls : List ApiParams
  toolLog : List (String × String)
deriving Repr, DecidableEq

/-- One-round conversation growth: the tool-requesting assistant turn, then
(if any results) all tool-result blocks as a single user-role message. -/
def roundMessages (tm : ToolManager) (st : OrcState) : List Message :=
  let msgs1 := st.messages ++ [⟨"assistant", MsgContent.blocks st.current.content⟩]
  if (toolResults tm st.current.content).isEmpty then msgs1
  else msgs1 ++ [⟨"user", MsgContent.results (toolResults tm st.current.content)⟩]

/-- The `for round_num in range(MAX_TOOL_ROUNDS)` loop of
`_handle_tool_execution`, with the fuel counting the remaining rounds
(`fuel = MAX_TOOL_ROUNDS - round_num`, so `is_last_round ↔ fuel = 1`).
Returns `none` only when the oracle script is exhausted. -/
def toolLoop (tm : ToolManager) (tools : Option (List ToolDef))
    (system : String) (model : String) : Nat → OrcState → Option OrcState
  | 0, st => some st
  | Nat.succ rounds, st =>
    let st1 : OrcState :=
      { st with
        messages := roundMessages tm st
        toolLog := st.toolLog ++ toolDispatches st.current.content }
    if toolFailed tm st.current.content then some st1
    else
      let nextParams : ApiParams :=
        nextRoundParams model st1.messages system tools
          (toolsTruthy tools && !(decide (rounds = 0)))
      match st1.pending with
      | [] => none
      | r :: rest =>
        let st2 : OrcState :=
          { st1 with current := r, pending := rest, calls := st1.calls ++ [nextParams] }
        if r.stop_reason == "tool_use" then toolLoop tm tools system model rounds st2
        else some st2

/-- `_handle_tool_execution(initial_response, base_params, tool_manager, tools)`:
runs the bounded loop, then — if the last response still requests a tool —
issues one fallback call with no tools, and returns the first text of the
final response, `content[0].text`. -/
def handle_tool_execution (tm : ToolManager) (initial_response : Response)
    (base_params : ApiParams) (tools : Option (List ToolDef))
    (pending : List Response) (callsSoFar : List ApiParams) : Option GenResult :=
  let st0 : OrcState :=
    { messages := base_params.messages, current := initial_response
      pending := pending, calls := callsSoFar, toolLog := [] }
  match toolLoop tm tools base_params.system base_params.model MAX_TOOL_ROUNDS st0 with
  | none => none
  | some st =>
    if st.current.stop_reason == "tool_use" then
      let fallback_params : ApiParams :=
        { model := base_params.model, temperature := 0, max_tokens := 800
          messages := st.messages, system := base_params.system
          tools := none, tool_choice := none }
      match st.pending with
      | [] => none
      | r :: _ =>
        some { calls := st.calls ++ [fallback_params], toolLog := st.toolLog
               answer := firstText r }
    else
      some { calls := st.calls, toolLog := st.toolLog, answer := firstText st.current }

/-- The `api_params` of the initial model call of `generate_response`: the
base params, the user query as sole message, the composed system content,
and the `tools` / `tool_choice` keys exactly when `tools` is truthy. -/
def initParams (model : String) (query : String)
    (conversation_history : Option String) (tools : Option (List ToolDef)) :
    ApiParams :=
  { model := model, temperature := 0, max_tokens := 800
    messages := [⟨"user", MsgContent.str query⟩]
    system := composeSystem conversation_history
    tools := if toolsTruthy tools then tools else none
    tool_choice := if toolsTruthy tools then some "auto" else none }

/-- `generate_response(query, conversation_history, tools, tool_manager)`
run against the oracle `script`.  Returns the execution trace, or `none`
when the script is exhausted before the run completes. -/
def generate_response (model : String) (query : String)
    (conversation_history : Option String) (tools : Option (List ToolDef))
    (tool_manager : Option ToolManager) (script : List Response) :
    Option GenResult :=
  let api_params : ApiParams := initParams model query conversation_history tools
  match script with
  | [] => none
  | response :: rest =>
    match tool_manager with
    | some tm =>
      if response.stop_reason == "tool_use" then
        handle_tool_execution tm response api_params tools rest [api_params]
      else
        some { calls := [api_params], toolLog := [], answer := firstText response }
    | none =>
      some { calls := [api_params], toolLog := [], answer := firstText response }
section Lemmas

theorem toolResults_length (tm : ToolManager) (bs : List ContentBlock) :
    (toolResults tm bs).length = countToolUse bs := by
  induction bs with
  | nil => rfl
  | cons b rest ih =>
    cases b with
    | text s => simpa [toolResults, countToolUse] using ih
    | toolUse u => simp [toolResults, countToolUse, ih, Nat.add_comm]

theorem toolDispatches_length (bs : List ContentBlock) :
    (toolDispatches bs).length = countToolUse bs := by
  induction bs with
  | nil => rfl
  | cons b rest ih =>
    cases b with
    | text s => simpa [toolDispatches, countToolUse] using ih
    | toolUse u => simp [toolDispatches, countToolUse, ih, Nat.add_comm]

theorem toolResults_ids (tm : ToolManager) (bs : List ContentBlock) :
    (toolResults tm bs).map ToolResult.tool_use_id = toolUseIds bs := by
  induction bs with
  | nil => rfl
  | cons b rest ih =>
    cases b with
    | text s => simpa [toolResults, toolUseIds] using ih
    | toolUse u => simp [toolResults, toolUseIds, ih]

theorem toolFailed_iff (tm : ToolManager) (bs : List ContentBlock) :
    toolFailed tm bs = true ↔
      ∃ b : ToolUseBlock, ContentBlock.toolUse b ∈ bs ∧ tm b.name b.input = sentinel b.name := by
  induction bs with
  | nil => simp [toolFailed]
  | cons c rest ih =>
    cases c with
    | text s =>
      simp only [toolFailed, ih]
      constructor
      · rintro ⟨b, hb, he⟩; exact ⟨b, List.mem_cons_of_mem _ hb, he⟩
      · rintro ⟨b, hb, he⟩
        rcases List.mem_cons.mp hb with h | h
        · cases h
        · exact ⟨b, h, he⟩
    | toolUse u =>
      simp only [toolFailed, Bool.or_eq_true, beq_iff_eq, ih]
      constructor
      · rintro (he | ⟨b, hb, he⟩)
        · exact ⟨u, List.mem_cons_self _ _, he⟩
        · exact ⟨b, List.mem_cons_of_mem _ hb, he⟩
      · rintro ⟨b, hb, he⟩
        rcases List.mem_cons.mp hb with h | h
        · cases h; exact Or.inl he
        · exact Or.inr ⟨b, h, he⟩

theorem sentinel_inj {n m : String} (h : sentinel n = sentinel m) : n = m := by
  have hd : ("Tool " ++ squote ++ n ++ squote ++ " not found").data
      = ("Tool " ++ squote ++ m ++ squote ++ " not found").data := by
    rw [show ("Tool " ++ squote ++ n ++ squote ++ " not found") = sentinel n from rfl,
        show ("Tool " ++ squote ++ m ++ squote ++ " not found") = sentinel m from rfl, h]
  simp only [String.data_append, List.append_assoc] at hd
  have h2 := List.append_cancel_left (List.append_cancel_left hd)
  exact String.ext (List.append_cancel_right h2)

end Lemmas

theorem roundMessages_append (tm : ToolManager) (st : OrcState) :
    ∃ suf, roundMessages tm st = st.messages ++ suf := by
  simp only [roundMessages]
  split
  · exact ⟨_, rfl⟩
  · exact ⟨_, by rw [List.append_assoc]⟩

theorem nextRoundParams_fields (model : String) (msgs : List Message)
    (system : String) (tools : Option (List ToolDef)) (it : Bool) :
    (nextRoundParams model msgs system tools it).temperature = 0 ∧
    (nextRoundParams model msgs system tools it).max_tokens = 800 ∧
    (nextRoundParams model msgs system tools it).system = system ∧
    (nextRoundParams model msgs system tools it).model = model :=
  ⟨rfl, rfl, rfl, rfl⟩

theorem toolLoop_mono (tm : ToolManager) (tools : Option (List ToolDef))
    (system model : String) :
    ∀ (fuel : Nat) (st st' : OrcState),
    toolLoop tm tools system model fuel st = some st' →
    (∃ suf : List ApiParams, st'.calls = st.calls ++ suf ∧ suf.length ≤ fuel ∧
        ∀ p ∈ suf, p.temperature = 0 ∧ p.max_tokens = 800 ∧
          p.system = system ∧ p.model = model) ∧
    (∃ msuf : List Message, st'.messages = st.messages ++ msuf) := by
  intro fuel
  induction fuel with
  | zero =>
    intro st st' h
    simp only [toolLoop] at h
    cases h
    exact ⟨⟨[], by simp, by simp, by simp⟩, ⟨[], by simp⟩⟩
  | succ n ih =>
    intro st st' h
    simp only [toolLoop] at h
    split at h
    · cases h
      obtain ⟨suf, hsuf⟩ := roundMessages_append tm st
      exact ⟨⟨[], by simp, by simp, by simp⟩, ⟨suf, hsuf⟩⟩
    · split at h
      · exact absurd h (by simp)
      · rename_i r rest hpend
        split at h
        · -- continue looping
          obtain ⟨⟨suf, hcalls, hlen, hprops⟩, ⟨msuf, hmsgs⟩⟩ := ih _ _ h
          obtain ⟨rsuf, hrm⟩ := roundMessages_append tm st
          refine ⟨⟨nextRoundParams model (roundMessages tm st) system tools
              (toolsTruthy tools && !(decide (n = 0))) :: suf, ?_, ?_, ?_⟩,
            ⟨rsuf ++ msuf, ?_⟩⟩
          · simpa [List.append_assoc] using hcalls
          · simpa using Nat.succ_le_succ hlen
          · intro p hp
            rcases List.mem_cons.mp hp with h | h
            · subst h; exact nextRoundParams_fields ..
            · exact hprops p h
          · simp only [hmsgs, hrm, List.append_assoc]
        · -- response is not tool_use: stop
          cases h
          obtain ⟨rsuf, hrm⟩ := roundMessages_append tm st
          refine ⟨⟨[nextRoundParams model (roundMessages tm st) system tools
              (toolsTruthy tools && !(decide (n = 0)))], rfl, by simp, ?_⟩,
            ⟨rsuf, hrm⟩⟩
          intro p hp
          rcases List.mem_cons.mp hp with h | h
          · subst h; exact nextRoundParams_fields ..
          · cases h

theorem toolLoop_succ_failed (tm : ToolManager) (tools : Option (List ToolDef))
    (system model : String) (n : Nat) (st : OrcState)
    (hf : toolFailed tm st.current.content = true) :
    toolLoop tm tools system model (n + 1) st =
      some { st with messages := roundMessages tm st,
                     toolLog := st.toolLog ++ toolDispatches st.current.content } := by
  simp [toolLoop, hf]

theorem toolLoop_succ_stop (tm : ToolManager) (tools : Option (List ToolDef))
    (system model : String) (n : Nat) (st : OrcState) (r : Response)
    (rest : List Response)
    (hf : toolFailed tm st.current.content = false)
    (hpend : st.pending = r :: rest)
    (hr : (r.stop_reason == "tool_use") = false) :
    toolLoop tm tools system model (n + 1) st =
      some { messages := roundMessages tm st, current := r, pending := rest,
             calls := st.calls ++ [nextRoundParams model (roundMessages tm st)
               system tools (toolsTruthy tools && !(decide (n = 0)))],
             toolLog := st.toolLog ++ toolDispatches st.current.content } := by
  simp [toolLoop, hf, hpend, hr]

theorem toolLoop_succ_continue (tm : ToolManager) (tools : Option (List ToolDef))
    (system model : String) (n : Nat) (st : OrcState) (r : Response)
    (rest : List Response)
    (hf : toolFailed tm st.current.content = false)
    (hpend : st.pending = r :: rest)
    (hr : (r.stop_reason == "tool_use") = true) :
    toolLoop tm tools system model (n + 1) st =
      toolLoop tm tools system model n
        { messages := roundMessages tm st, current := r, pending := rest,
          calls := st.calls ++ [nextRoundParams model (roundMessages tm st)
            system tools (toolsTruthy tools && !(decide (n = 0)))],
          toolLog := st.toolLog ++ toolDispatches st.current.content } := by
  simp [toolLoop, hf, hpend, hr]

theorem generate_response_toolPath (model query : String)
    (hist : Option String) (tools : Option (List ToolDef)) (tm : ToolManager)
    (r : Response) (rest : List Response)
    (h1 : (r.stop_reason == "tool_use") = true) :
    generate_response model query hist tools (some tm) (r :: rest) =
      handle_tool_execution tm r (initParams model query hist tools) tools rest
        [initParams model query hist tools] := by
  simp [generate_response, h1]

theorem generate_response_direct (model query : String)
    (hist : Option String) (tools : Option (List ToolDef)) (tm : ToolManager)
    (r : Response) (rest : List Response)
    (h1 : (r.stop_reason == "tool_use") = false) :
    generate_response model query hist tools (some tm) (r :: rest) =
      some ⟨[initParams model query hist tools], [], firstText r⟩ := by
  simp [generate_response, h1]

theorem generate_response_noManager (model query : String)
    (hist : Option String) (tools : Option (List ToolDef))
    (r : Response) (rest : List Response) :
    generate_response model query hist tools none (r :: rest) =
      some ⟨[initParams model query hist tools], [], firstText r⟩ := by
  simp [generate_response]

theorem handle_spec_stop (tm : ToolManager) (initial : Response)
    (bp : ApiParams) (tools : Option (List ToolDef)) (pending : List Response)
    (calls0 : List ApiParams) (st : OrcState)
    (htl : toolLoop tm tools bp.system bp.model MAX_TOOL_ROUNDS
      { messages := bp.messages, current := initial, pending := pending,
        calls := calls0, toolLog := [] } = some st)
    (hs : (st.current.stop_reason == "tool_use") = false) :
    handle_tool_execution tm initial bp tools pending calls0 =
      some ⟨st.calls, st.toolLog, firstText st.current⟩ := by
  simp only [handle_tool_execution, htl]
  simp [hs]

theorem handle_spec_fallback (tm : ToolManager) (initial : Response)
    (bp : ApiParams) (tools : Option (List ToolDef)) (pending : List Response)
    (calls0 : List ApiParams) (st : OrcState) (r : Response) (rest : List Response)
    (htl : toolLoop tm tools bp.system bp.model MAX_TOOL_ROUNDS
      { messages := bp.messages, current := initial, pending := pending,
        calls := calls0, toolLog := [] } = some st)
    (hs : (st.current.stop_reason == "tool_use") = true)
    (hpend : st.pending = r :: rest) :
    handle_tool_execution tm initial bp tools pending calls0 =
      some ⟨st.calls ++ [⟨bp.model, 0, 800, st.messages, bp.system, none, none⟩],
            st.toolLog, firstText r⟩ := by
  simp only [handle_tool_execution, htl]
  simp [hs, hpend]

/-- C1: a first tool-use response with a single tool request followed by a
text response, with a tool manager supplied, yields exactly 2 model API
calls, exactly 1 tool dispatch, and the text of the first content block of
the second response as the returned string. -/
theorem c1_single_tool_round_two_calls (model query : String)
    (hist : Option String) (tools : Option (List ToolDef)) (tm : ToolManager)
    (r1 r2 : Response) (rest : List Response) (s : String)
    (tail : List ContentBlock)
    (h1 : r1.stop_reason = "tool_use")
    (hc : countToolUse r1.content = 1)
    (h2 : r2.stop_reason ≠ "tool_use")
    (h2c : r2.content = ContentBlock.text s :: tail) :
    ∃ tr : GenResult,
      generate_response model query hist tools (some tm) (r1 :: r2 :: rest) =
        some tr ∧
      tr.calls.length = 2 ∧ tr.toolLog.length = 1 ∧ tr.answer = some s := by
  have h1' : (r1.stop_reason == "tool_use") = true := by simp [h1]
  have h2' : (r2.stop_reason == "tool_use") = false := by simp [h2]
  have hft : firstText r2 = some s := by simp [firstText, h2c]
  rw [generate_response_toolPath _ _ _ _ _ _ _ h1']
  by_cases hf : toolFailed tm r1.content = true
  · -- the single dispatch returned the sentinel: fallback path, still 2 calls
    have htl := toolLoop_succ_failed tm tools
      (initParams model query hist tools).system
      (initParams model query hist tools).model 1
      ⟨(initParams model query hist tools).messages, r1, r2 :: rest,
        [initParams model query hist tools], []⟩ hf
    refine ⟨_, handle_spec_fallback tm r1 _ tools (r2 :: rest)
        [initParams model query hist tools] _ r2 rest htl h1' rfl, ?_, ?_, hft⟩
    · rfl
    · simpa [toolDispatches_length] using hc
  · -- normal path: one round, second call returns text
    have hf' : toolFailed tm r1.content = false := by simpa using hf
    have htl := toolLoop_succ_stop tm tools
      (initParams model query hist tools).system
      (initParams model query hist tools).model 1
      ⟨(initParams model query hist tools).messages, r1, r2 :: rest,
        [initParams model query hist tools], []⟩ r2 rest hf' rfl h2'
    refine ⟨_, handle_spec_stop tm r1 _ tools (r2 :: rest)
        [initParams model query hist tools] _ htl h2', ?_, ?_, hft⟩
    · rfl
    · simpa [toolDispatches_length] using hc

/-- C2: two consecutive single-tool tool-use responses followed by a text
response, with non-empty tool definitions and a tool manager, yield exactly
3 model API calls and 2 tool dispatches; the 2nd (intermediate) call carries
the tool schemas with automatic tool choice and the 3rd (final-round) call
omits the tools parameter entirely. -/
theorem c2_two_rounds_tools_omitted_on_final (model query : String)
    (hist : Option String) (tdefs : List ToolDef) (tm : ToolManager)
    (r1 r2 r3 : Response) (rest : List Response)
    (htd : tdefs ≠ [])
    (h1 : r1.stop_reason = "tool_use")
    (hc1 : countToolUse r1.content = 1)
    (hf1 : toolFailed tm r1.content = false)
    (h2 : r2.stop_reason = "tool_use")
    (hc2 : countToolUse r2.content = 1)
    (hf2 : toolFailed tm r2.content = false)
    (h3 : r3.stop_reason ≠ "tool_use") :
    ∃ (tr : GenResult) (p1 p2 p3 : ApiParams),
      generate_response model query hist (some tdefs) (some tm)
        (r1 :: r2 :: r3 :: rest) = some tr ∧
      tr.calls = [p1, p2, p3] ∧ tr.toolLog.length = 2 ∧
      p2.tools = some tdefs ∧ p2.tool_choice = some "auto" ∧
      p3.tools = none ∧ p3.tool_choice = none ∧
      tr.answer = firstText r3 := by
  have h1' : (r1.stop_reason == "tool_use") = true := by simp [h1]
  have h2' : (r2.stop_reason == "tool_use") = true := by simp [h2]
  have h3' : (r3.stop_reason == "tool_use") = false := by simp [h3]
  have htt : toolsTruthy (some tdefs) = true := by simp [toolsTruthy, htd]
  rw [generate_response_toolPath _ _ _ _ _ _ _ h1']
  have h12 := toolLoop_succ_continue tm (some tdefs)
    (initParams model query hist (some tdefs)).system
    (initParams model query hist (some tdefs)).model 1
    ⟨(initParams model query hist (some tdefs)).messages, r1, r2 :: r3 :: rest,
      [initParams model query hist (some tdefs)], []⟩ r2 (r3 :: rest) hf1 rfl h2'
  have h23 := toolLoop_succ_stop tm (some tdefs)
    (initParams model query hist (some tdefs)).system
    (initParams model query hist (some tdefs)).model 0
    ⟨roundMessages tm ⟨(initParams model query hist (some tdefs)).messages, r1,
        r2 :: r3 :: rest, [initParams model query hist (some tdefs)], []⟩,
      r2, r3 :: rest,
      [initParams model query hist (some tdefs),
        nextRoundParams (initParams model query hist (some tdefs)).model
          (roundMessages tm ⟨(initParams model query hist (some tdefs)).messages,
            r1, r2 :: r3 :: rest, [initParams model query hist (some tdefs)], []⟩)
          (initParams model query hist (some tdefs)).system (some tdefs)
          (toolsTruthy (some tdefs) && !(decide ((1 : Nat) = 0)))],
      toolDispatches r1.content⟩ r3 rest hf2 rfl h3'
  have hh := handle_spec_stop tm r1 (initParams model query hist (some tdefs))
    (some tdefs) (r2 :: r3 :: rest) [initParams model query hist (some tdefs)]
    _ (h12.trans h23) h3'
  refine ⟨_, _, _, _, hh, rfl, ?_, ?_, ?_, ?_, ?_, rfl⟩
  · simp [toolDispatches_length, hc1, hc2]
  · simp [nextRoundParams, htt]
  · simp [nextRoundParams, htt]
  · simp [nextRoundParams]
  · simp [nextRoundParams]

/-- C3: when some dispatch of a round returns the not-found sentinel for the
requested name, the orchestrator issues no further in-loop model call for
that round; it issues exactly one fallback call whose parameters contain no
tools and returns the text of that fallback response.  The two conjuncts cover a
failure in round 1 and in round 2 (the only rounds, `MAX_TOOL_ROUNDS = 2`). -/
theorem c3_sentinel_stops_round_single_fallback (model query : String)
    (hist : Option String) (tools : Option (List ToolDef)) (tm : ToolManager)
    (r1 r2 r3 : Response) (rest : List Response)
    (h1 : r1.stop_reason = "tool_use") :
    (toolFailed tm r1.content = true →
      ∃ (tr : GenResult) (fb : ApiParams),
        generate_response model query hist tools (some tm)
          (r1 :: r2 :: r3 :: rest) = some tr ∧
        tr.calls = [initParams model query hist tools, fb] ∧
        fb.tools = none ∧ fb.tool_choice = none ∧
        tr.answer = firstText r2) ∧
    (toolFailed tm r1.content = false → r2.stop_reason = "tool_use" →
      toolFailed tm r2.content = true →
      ∃ (tr : GenResult) (p2 fb : ApiParams),
        generate_response model query hist tools (some tm)
          (r1 :: r2 :: r3 :: rest) = some tr ∧
        tr.calls = [initParams model query hist tools, p2, fb] ∧
        fb.tools = none ∧ fb.tool_choice = none ∧
        tr.answer = firstText r3) := by
  have h1' : (r1.stop_reason == "tool_use") = true := by simp [h1]
  constructor
  · intro hfail
    have htl := toolLoop_succ_failed tm tools
      (initParams model query hist tools).system
      (initParams model query hist tools).model 1
      ⟨(initParams model query hist tools).messages, r1, r2 :: r3 :: rest,
        [initParams model query hist tools], []⟩ hfail
    have hh := handle_spec_fallback tm r1 (initParams model query hist tools)
      tools (r2 :: r3 :: rest) [initParams model query hist tools]
      _ r2 (r3 :: rest) htl h1' rfl
    rw [generate_response_toolPath _ _ _ _ _ _ _ h1']
    exact ⟨_, _, hh, rfl, rfl, rfl, rfl⟩
  · intro hf1 h2 hfail2
    have h2' : (r2.stop_reason == "tool_use") = true := by simp [h2]
    have h12 := toolLoop_succ_continue tm tools
      (initParams model query hist tools).system
      (initParams model query hist tools).model 1
      ⟨(initParams model query hist tools).messages, r1, r2 :: r3 :: rest,
        [initParams model query hist tools], []⟩ r2 (r3 :: rest) hf1 rfl h2'
    have h2fail := toolLoop_succ_failed tm tools
      (initParams model query hist tools).system
      (initParams model query hist tools).model 0
      ⟨roundMessages tm ⟨(initParams model query hist tools).messages, r1,
          r2 :: r3 :: rest, [initParams model query hist tools], []⟩,
        r2, r3 :: rest,
        [initParams model query hist tools,
          nextRoundParams (initParams model query hist tools).model
            (roundMessages tm ⟨(initParams model query hist tools).messages,
              r1, r2 :: r3 :: rest, [initParams model query hist tools], []⟩)
            (initParams model query hist tools).system tools
            (toolsTruthy tools && !(decide ((1 : Nat) = 0)))],
        toolDispatches r1.content⟩ hfail2
    have hh := handle_spec_fallback tm r1 (initParams model query hist tools)
      tools (r2 :: r3 :: rest) [initParams model query hist tools]
      _ r3 rest (h12.trans h2fail) h2' rfl
    rw [generate_response_toolPath _ _ _ _ _ _ _ h1']
    exact ⟨_, _, _, hh, rfl, rfl, rfl, rfl⟩

theorem handle_calls_facts (tm : ToolManager) (r : Response) (bp : ApiParams)
    (tools : Option (List ToolDef)) (pending : List Response)
    (calls0 : List ApiParams) (tr : GenResult)
    (h : handle_tool_execution tm r bp tools pending calls0 = some tr) :
    (calls0.length ≤ tr.calls.length ∧
      tr.calls.length ≤ calls0.length + MAX_TOOL_ROUNDS + 1) ∧
    (∀ p ∈ tr.calls, p ∈ calls0 ∨ (p.temperature = 0 ∧ p.max_tokens = 800 ∧
      p.system = bp.system ∧ p.model = bp.model)) := by
  simp only [handle_tool_execution] at h
  split at h
  · exact absurd h (by simp)
  · rename_i st htl
    obtain ⟨⟨suf, hcalls, hlen, hprops⟩, -⟩ :=
      toolLoop_mono tm tools bp.system bp.model MAX_TOOL_ROUNDS _ st htl
    split at h
    · -- still tool_use after the loop: one fallback call
      split at h
      · exact absurd h (by simp)
      · cases h
        constructor
        · constructor
          · simp [hcalls]
          · simp only [hcalls]
            simp only [List.length_append, List.length_cons, List.length_nil]
            omega
        · intro p hp
          simp only [hcalls] at hp
          rcases List.mem_append.mp hp with hpe | hfb
          · rcases List.mem_append.mp hpe with hc0 | hsuf
            · exact Or.inl hc0
            · exact Or.inr (hprops p hsuf)
          · rcases List.mem_singleton.mp hfb with rfl
            exact Or.inr ⟨rfl, rfl, rfl, rfl⟩
    · cases h
      constructor
      · constructor
        · simp [hcalls]
        · simp only [hcalls, List.length_append]
          omega
      · intro p hp
        simp only [hcalls] at hp
        rcases List.mem_append.mp hp with hc0 | hsuf
        · exact Or.inl hc0
        · exact Or.inr (hprops p hsuf)

/-- C4: `generate_response` always terminates with a bounded trace: the loop
runs at most `MAX_TOOL_ROUNDS = 2` iterations, at most one fallback call
follows it, and in total every execution issues at least 1 and at most
`1 + MAX_TOOL_ROUNDS + 1 = 4` model API calls. -/
theorem c4_at_most_four_model_calls (model query : String)
    (hist : Option String) (tools : Option (List ToolDef))
    (tool_manager : Option ToolManager) (script : List Response)
    (tr : GenResult)
    (h : generate_response model query hist tools tool_manager script = some tr) :
    1 ≤ tr.calls.length ∧ tr.calls.length ≤ 1 + MAX_TOOL_ROUNDS + 1 ∧
      1 + MAX_TOOL_ROUNDS + 1 = 4 := by
  cases script with
  | nil => exact absurd h (by simp [generate_response])
  | cons r rest =>
    cases tool_manager with
    | none =>
      simp only [generate_response] at h
      cases h
      exact ⟨by simp, by simp [MAX_TOOL_ROUNDS], rfl⟩
    | some tm =>
      simp only [generate_response] at h
      split at h
      · obtain ⟨⟨hlo, hhi⟩, -⟩ := handle_calls_facts tm r
          (initParams model query hist tools) tools rest
          [initParams model query hist tools] tr h
        refine ⟨?_, ?_, rfl⟩
        · exact le_trans (by simp) hlo
        · simpa using hhi
      · cases h
        exact ⟨by simp, by simp [MAX_TOOL_ROUNDS], rfl⟩

/-- C8: every model API call of one `generate_response` execution — initial,
in-loop, and fallback — uses temperature 0 and max 800 output tokens, and
carries the identical system string composed at the start of the query. -/
theorem c8_uniform_call_params (model query : String)
    (hist : Option String) (tools : Option (List ToolDef))
    (tool_manager : Option ToolManager) (script : List Response)
    (tr : GenResult)
    (h : generate_response model query hist tools tool_manager script = some tr) :
    ∀ p ∈ tr.calls, p.temperature = 0 ∧ p.max_tokens = 800 ∧
      p.system = composeSystem hist ∧ p.model = model := by
  cases script with
  | nil => exact absurd h (by simp [generate_response])
  | cons r rest =>
    cases tool_manager with
    | none =>
      simp only [generate_response] at h
      cases h
      intro p hp
      rcases List.mem_singleton.mp hp with rfl
      exact ⟨rfl, rfl, rfl, rfl⟩
    | some tm =>
      simp only [generate_response] at h
      split at h
      · obtain ⟨-, hmem⟩ := handle_calls_facts tm r
          (initParams model query hist tools) tools rest
          [initParams model query hist tools] tr h
        intro p hp
        rcases hmem p hp with hc0 | hprops
        · rcases List.mem_singleton.mp hc0 with rfl
          exact ⟨rfl, rfl, rfl, rfl⟩
        · exact hprops
      · cases h
        intro p hp
        rcases List.mem_singleton.mp hp with rfl
        exact ⟨rfl, rfl, rfl, rfl⟩

theorem roundMessages_eq (tm : ToolManager) (st : OrcState) :
    roundMessages tm st =
      st.messages ++ [⟨"assistant", MsgContent.blocks st.current.content⟩] ++
        (if (toolResults tm st.current.content).isEmpty then []
         else [⟨"user", MsgContent.results (toolResults tm st.current.content)⟩]) := by
  simp only [roundMessages]
  split <;> simp_all

theorem toolLoop_succ_messages (tm : ToolManager) (tools : Option (List ToolDef))
    (system model : String) (n : Nat) (st st' : OrcState)
    (h : toolLoop tm tools system model (n + 1) st = some st') :
    ∃ suf, st'.messages = roundMessages tm st ++ suf := by
  simp only [toolLoop] at h
  split at h
  · cases h
    exact ⟨[], by simp⟩
  · split at h
    · exact absurd h (by simp)
    · rename_i r rest hpend
      split at h
      · obtain ⟨-, msuf, hm⟩ := toolLoop_mono tm tools system model n _ st' h
        exact ⟨msuf, hm⟩
      · cases h
        exact ⟨[], by simp⟩

theorem handle_calls_extends (tm : ToolManager) (r : Response) (bp : ApiParams)
    (tools : Option (List ToolDef)) (pending : List Response)
    (calls0 : List ApiParams) (tr : GenResult)
    (h : handle_tool_execution tm r bp tools pending calls0 = some tr) :
    ∃ suf, tr.calls = calls0 ++ suf := by
  simp only [handle_tool_execution] at h
  split at h
  · exact absurd h (by simp)
  · rename_i st htl
    obtain ⟨⟨suf, hcalls, -, -⟩, -⟩ :=
      toolLoop_mono tm tools bp.system bp.model MAX_TOOL_ROUNDS _ st htl
    split at h
    · split at h
      · exact absurd h (by simp)
      · cases h
        exact ⟨suf ++ [⟨bp.model, 0, 800, st.messages, bp.system, none, none⟩],
          by simp [hcalls]⟩
    · cases h
      exact ⟨suf, hcalls⟩

/-- C5: tool-result blocks always carry the tool-use ids of the immediately
preceding assistant turn, in request order, and within each round of the
loop the assistant turn followed by all its results as one single
user-role message is what gets appended to the conversation. -/
theorem c5_tool_results_reference_preceding_turn (tm : ToolManager)
    (bs : List ContentBlock) (tools : Option (List ToolDef))
    (system model : String) (n : Nat) (st st' : OrcState)
    (h : toolLoop tm tools system model (n + 1) st = some st') :
    ((toolResults tm bs).map ToolResult.tool_use_id = toolUseIds bs) ∧
    (∃ suf : List Message,
      st'.messages =
        st.messages ++ [⟨"assistant", MsgContent.blocks st.current.content⟩] ++
          (if (toolResults tm st.current.content).isEmpty then []
           else [⟨"user", MsgContent.results (toolResults tm st.current.content)⟩])
          ++ suf) := by
  refine ⟨toolResults_ids tm bs, ?_⟩
  obtain ⟨suf, hm⟩ := toolLoop_succ_messages tm tools system model n st st' h
  exact ⟨suf, by rw [hm, roundMessages_eq]⟩

/-- C6: the initial model call of every execution has the user query as sole
conversation message, the system prompt with a history rendering appended
iff a non-empty history was supplied, and the tool schemas with automatic
tool choice iff a non-empty tool-definitions list was supplied. -/
theorem c6_initial_call_shape (model query : String) (hist : Option String)
    (tools : Option (List ToolDef)) (tool_manager : Option ToolManager)
    (script : List Response) (tr : GenResult)
    (h : generate_response model query hist tools tool_manager script = some tr) :
    ∃ (p0 : ApiParams) (ps : List ApiParams),
      tr.calls = p0 :: ps ∧
      p0.messages = [⟨"user", MsgContent.str query⟩] ∧
      (strTruthy hist = true →
        p0.system = SYSTEM_PROMPT ++ "\n\nPrevious conversation:\n" ++ hist.getD "") ∧
      (strTruthy hist = false → p0.system = SYSTEM_PROMPT) ∧
      (toolsTruthy tools = true → p0.tools = tools ∧ p0.tool_choice = some "auto") ∧
      (toolsTruthy tools = false → p0.tools = none ∧ p0.tool_choice = none) := by
  have hshape : ∃ ps, tr.calls = initParams model query hist tools :: ps := by
    cases script with
    | nil => exact absurd h (by simp [generate_response])
    | cons r rest =>
      cases tool_manager with
      | none =>
        simp only [generate_response] at h
        cases h
        exact ⟨[], rfl⟩
      | some tm =>
        simp only [generate_response] at h
        split at h
        · obtain ⟨suf, hc⟩ := handle_calls_extends tm r
            (initParams model query hist tools) tools rest
            [initParams model query hist tools] tr h
          exact ⟨suf, by simpa using hc⟩
        · cases h
          exact ⟨[], rfl⟩
  obtain ⟨ps, hps⟩ := hshape
  refine ⟨initParams model query hist tools, ps, hps, rfl, ?_, ?_, ?_, ?_⟩
  · intro ht; simp [initParams, composeSystem, ht]
  · intro ht; simp [initParams, composeSystem, ht]
  · intro ht; simp [initParams, ht]
  · intro ht; simp [initParams, ht]

/-- C7: with no tool manager supplied and a tool-use model response, exactly
1 model API call is made, no tool dispatch is attempted, and the text of
the first content block of the response is returned as-is. -/
theorem c7_no_manager_single_call (model query : String) (hist : Option String)
    (tools : Option (List ToolDef)) (r : Response) (rest : List Response)
    (_h1 : r.stop_reason = "tool_use") :
    ∃ tr : GenResult,
      generate_response model query hist tools none (r :: rest) = some tr ∧
      tr.calls.length = 1 ∧ tr.toolLog = [] ∧ tr.answer = firstText r := by
  rw [generate_response_noManager]
  exact ⟨_, rfl, rfl, rfl, rfl⟩

/-- C9: failed-round detection is an exact string comparison: a round fails
iff the result of some dispatched tool-use block equals the sentinel for the name
that was requested (so a registered tool returning that exact string
triggers the early termination and fallback, while the sentinel for a
different name does not, sentinels for distinct names being distinct); in a
failed round every tool-use request is still dispatched and its result
built, and the loop then stops with no further in-loop model call. -/
theorem c9_sentinel_exact_string_detection (tm : ToolManager)
    (bs : List ContentBlock) (tools : Option (List ToolDef))
    (system model : String) (n : Nat) (st : OrcState) :
    (toolFailed tm bs = true ↔
      ∃ b : ToolUseBlock, ContentBlock.toolUse b ∈ bs ∧
        tm b.name b.input = sentinel b.name) ∧
    (∀ n1 n2 : String, sentinel n1 = sentinel n2 → n1 = n2) ∧
    (toolResults tm bs).length = countToolUse bs ∧
    (toolFailed tm st.current.content = true →
      toolLoop tm tools system model (n + 1) st =
        some { st with
                 messages := roundMessages tm st,
                 toolLog := st.toolLog ++ toolDispatches st.current.content }) := by
  refine ⟨toolFailed_iff tm bs, fun n1 n2 h => sentinel_inj h,
    toolResults_length tm bs, ?_⟩
  intro hf
  exact toolLoop_succ_failed tm tools system model n st hf

/-- C10: both return paths read the text of the first content block of the
last response without a guard: the result is `none` exactly when the content
is empty or starts with a tool-use block, the error is reachable on both the
direct-answer path and the post-loop path, and the access is safe exactly
under the precondition that the first content block is a text block. -/
theorem c10_unguarded_first_text_access (r0 : Response) :
    (firstText r0 = none ↔ (r0.content = [] ∨
      ∃ (b : ToolUseBlock) (rest : List ContentBlock),
        r0.content = ContentBlock.toolUse b :: rest)) ∧
    (∀ (s : String) (rest : List ContentBlock),
      r0.content = ContentBlock.text s :: rest → firstText r0 = some s) ∧
    (∃ tr : GenResult,
      generate_response "m" "q" none none none [⟨"end_turn", []⟩] = some tr ∧
      tr.answer = none) ∧
    (∃ tr : GenResult,
      generate_response "m" "q" none none (some fun _ _ => "ok")
        [⟨"tool_use", [ContentBlock.toolUse ⟨"i", "t", "x"⟩]⟩,
         ⟨"end_turn", [ContentBlock.toolUse ⟨"j", "u", "y"⟩]⟩] = some tr ∧
      tr.answer = none) := by
  refine ⟨?_, ?_, ⟨_, rfl, rfl⟩, ⟨_, rfl, rfl⟩⟩
  · obtain ⟨sr, content⟩ := r0
    cases content with
    | nil => simp [firstText]
    | cons c tl =>
      cases c with
      | text s => simp [firstText]
      | toolUse b => simp [firstText]
  · intro s rest hc
    simp [firstText, hc]

/-- Witness for C1 at a concrete script. -/
theorem c1_witness :
    ∃ tr : GenResult,
      generate_response "m" "q" none (some ["td"]) (some fun _ _ => "ok")
        [⟨"tool_use", [ContentBlock.toolUse ⟨"i1", "search", "x"⟩]⟩,
         ⟨"end_turn", [ContentBlock.text "ans"]⟩] = some tr ∧
      tr.calls.length = 2 ∧ tr.toolLog.length = 1 ∧ tr.answer = some "ans" :=
  c1_single_tool_round_two_calls "m" "q" none (some ["td"]) (fun _ _ => "ok")
    ⟨"tool_use", [ContentBlock.toolUse ⟨"i1", "search", "x"⟩]⟩
    ⟨"end_turn", [ContentBlock.text "ans"]⟩ [] "ans" [] rfl rfl (by decide) rfl

/-- Witness for C2 at a concrete script. -/
theorem c2_witness :
    ∃ (tr : GenResult) (p1 p2 p3 : ApiParams),
      generate_response "m" "q" none (some ["td"]) (some fun _ _ => "ok")
        [⟨"tool_use", [ContentBlock.toolUse ⟨"i1", "search", "x"⟩]⟩,
         ⟨"tool_use", [ContentBlock.toolUse ⟨"i2", "outline", "y"⟩]⟩,
         ⟨"end_turn", [ContentBlock.text "ans"]⟩] = some tr ∧
      tr.calls = [p1, p2, p3] ∧ tr.toolLog.length = 2 ∧
      p2.tools = some ["td"] ∧ p2.tool_choice = some "auto" ∧
      p3.tools = none ∧ p3.tool_choice = none ∧
      tr.answer = firstText ⟨"end_turn", [ContentBlock.text "ans"]⟩ :=
  c2_two_rounds_tools_omitted_on_final "m" "q" none ["td"] (fun _ _ => "ok")
    ⟨"tool_use", [ContentBlock.toolUse ⟨"i1", "search", "x"⟩]⟩
    ⟨"tool_use", [ContentBlock.toolUse ⟨"i2", "outline", "y"⟩]⟩
    ⟨"end_turn", [ContentBlock.text "ans"]⟩ [] (by decide) rfl rfl (by decide)
    rfl rfl (by decide) (by decide)

/-- Witness for C3 at a concrete script whose first dispatch returns the
sentinel. -/
theorem c3_witness :
    ∃ (tr : GenResult) (fb : ApiParams),
      generate_response "m" "q" none (some ["td"]) (some fun nm _ => sentinel nm)
        [⟨"tool_use", [ContentBlock.toolUse ⟨"i1", "t", "x"⟩]⟩,
         ⟨"end_turn", [ContentBlock.text "fb"]⟩,
         ⟨"end_turn", [ContentBlock.text "z"]⟩] = some tr ∧
      tr.calls = [initParams "m" "q" none (some ["td"]), fb] ∧
      fb.tools = none ∧ fb.tool_choice = none ∧
      tr.answer = firstText ⟨"end_turn", [ContentBlock.text "fb"]⟩ :=
  (c3_sentinel_stops_round_single_fallback "m" "q" none (some ["td"])
    (fun nm _ => sentinel nm)
    ⟨"tool_use", [ContentBlock.toolUse ⟨"i1", "t", "x"⟩]⟩
    ⟨"end_turn", [ContentBlock.text "fb"]⟩
    ⟨"end_turn", [ContentBlock.text "z"]⟩ [] rfl).1 (by decide)

/-- Witness for C4 at a concrete script. -/
theorem c4_witness :
    1 ≤ (GenResult.mk [initParams "m" "q" none none] [] (some "hi")).calls.length ∧
    (GenResult.mk [initParams "m" "q" none none] [] (some "hi")).calls.length ≤
      1 + MAX_TOOL_ROUNDS + 1 ∧
    1 + MAX_TOOL_ROUNDS + 1 = 4 :=
  c4_at_most_four_model_calls "m" "q" none none none
    [⟨"end_turn", [ContentBlock.text "hi"]⟩]
    ⟨[initParams "m" "q" none none], [], some "hi"⟩ rfl

/-- Witness for C5 at a concrete one-round loop run. -/
theorem c5_witness :
    ((toolResults (fun nm _ => sentinel nm)
        [ContentBlock.toolUse ⟨"i", "t", "x"⟩]).map ToolResult.tool_use_id =
      toolUseIds [ContentBlock.toolUse ⟨"i", "t", "x"⟩]) ∧
    (∃ suf : List Message,
      [⟨"assistant", MsgContent.blocks [ContentBlock.toolUse ⟨"i", "t", "x"⟩]⟩,
       ⟨"user", MsgContent.results [⟨"i", sentinel "t"⟩]⟩] =
      ([] : List Message) ++
        [⟨"assistant", MsgContent.blocks [ContentBlock.toolUse ⟨"i", "t", "x"⟩]⟩] ++
        (if (toolResults (fun nm _ => sentinel nm)
              [ContentBlock.toolUse ⟨"i", "t", "x"⟩]).isEmpty then []
         else [⟨"user", MsgContent.results (toolResults (fun nm _ => sentinel nm)
                [ContentBlock.toolUse ⟨"i", "t", "x"⟩])⟩]) ++ suf) :=
  c5_tool_results_reference_preceding_turn (fun nm _ => sentinel nm)
    [ContentBlock.toolUse ⟨"i", "t", "x"⟩] none "s" "m" 0
    ⟨[], ⟨"tool_use", [ContentBlock.toolUse ⟨"i", "t", "x"⟩]⟩, [], [], []⟩
    ⟨[⟨"assistant", MsgContent.blocks [ContentBlock.toolUse ⟨"i", "t", "x"⟩]⟩,
      ⟨"user", MsgContent.results [⟨"i", sentinel "t"⟩]⟩],
     ⟨"tool_use", [ContentBlock.toolUse ⟨"i", "t", "x"⟩]⟩, [], [], [("t", "x")]⟩
    rfl

/-- Witness for C6 at a concrete script. -/
theorem c6_witness :
    ∃ (p0 : ApiParams) (ps : List ApiParams),
      (GenResult.mk [initParams "m" "q" none none] [] (some "hi")).calls = p0 :: ps ∧
      p0.messages = [⟨"user", MsgContent.str "q"⟩] ∧
      (strTruthy none = true →
        p0.system = SYSTEM_PROMPT ++ "\n\nPrevious conversation:\n" ++
          (none : Option String).getD "") ∧
      (strTruthy none = false → p0.system = SYSTEM_PROMPT) ∧
      (toolsTruthy none = true → p0.tools = none ∧ p0.tool_choice = some "auto") ∧
      (toolsTruthy none = false → p0.tools = none ∧ p0.tool_choice = none) :=
  c6_initial_call_shape "m" "q" none none none
    [⟨"end_turn", [ContentBlock.text "hi"]⟩]
    ⟨[initParams "m" "q" none none], [], some "hi"⟩ rfl

/-- Witness for C7 at a concrete script. -/
theorem c7_witness :
    ∃ tr : GenResult,
      generate_response "m" "q" none none none
        [⟨"tool_use", [ContentBlock.toolUse ⟨"i", "t", "x"⟩]⟩] = some tr ∧
      tr.calls.length = 1 ∧ tr.toolLog = [] ∧
      tr.answer = firstText ⟨"tool_use", [ContentBlock.toolUse ⟨"i", "t", "x"⟩]⟩ :=
  c7_no_manager_single_call "m" "q" none none
    ⟨"tool_use", [ContentBlock.toolUse ⟨"i", "t", "x"⟩]⟩ [] rfl

/-- Witness for C8 at a concrete script and the concrete initial call. -/
theorem c8_witness :
    (initParams "m" "q" none none).temperature = 0 ∧
    (initParams "m" "q" none none).max_tokens = 800 ∧
    (initParams "m" "q" none none).system = composeSystem none ∧
    (initParams "m" "q" none none).model = "m" :=
  c8_uniform_call_params "m" "q" none none none
    [⟨"end_turn", [ContentBlock.text "hi"]⟩]
    ⟨[initParams "m" "q" none none], [], some "hi"⟩ rfl
    (initParams "m" "q" none none) (List.mem_singleton_self _)

/-- Witness for C9: a registered tool returning the exact sentinel makes the
round stop with no in-loop model call. -/
theorem c9_witness :
    toolLoop (fun nm _ => sentinel nm) none "s" "m" (0 + 1)
      ⟨[], ⟨"tool_use", [ContentBlock.toolUse ⟨"i", "t", "x"⟩]⟩, [], [], []⟩ =
    some ⟨[⟨"assistant", MsgContent.blocks [ContentBlock.toolUse ⟨"i", "t", "x"⟩]⟩,
           ⟨"user", MsgContent.results [⟨"i", sentinel "t"⟩]⟩],
          ⟨"tool_use", [ContentBlock.toolUse ⟨"i", "t", "x"⟩]⟩, [], [], [("t", "x")]⟩ :=
  (c9_sentinel_exact_string_detection (fun nm _ => sentinel nm) [] none "s" "m" 0
    ⟨[], ⟨"tool_use", [ContentBlock.toolUse ⟨"i", "t", "x"⟩]⟩, [], [], []⟩).2.2.2
    (by decide)

/-- Witness for C10: the text access is safe when the first block is text. -/
theorem c10_witness :
    firstText ⟨"end_turn", [ContentBlock.text "hi"]⟩ = some "hi" :=
  (c10_unguarded_first_text_access ⟨"end_turn", [ContentBlock.text "hi"]⟩).2.1
    "hi" [] rfl
